import Mathlib

/-!
Verification of the mxcube-video-streamer frame relay pipeline.

Shallow embedding of the core of `src/video_streamer`:
  * the capacity-1 frame hand-off channel used between the polling producer
    and the serving consumer (`multiprocessing.Queue(1)` together with
    `Camera._write_data` in `core/camera.py`);
  * the producer polling loop with its idle self-termination
    (`Camera.poll_image`);
  * the dual-source poll cycle (`LimaCameraDuo._poll_once`);
  * the raw frame header decode (`LimaCameraDuo._get_image`);
  * the dual-source demultiplexing and image-transform pipeline
    (`LimaCameraDuo.get_jpeg`);
  * the per-client session management of the MJPEGDUO HTTP endpoint
    (`video_feed` in `server.py`).

Machine integers are modelled by `Int`/`Nat`; Python `try/except` blocks
become `Option`/`Except`; the mutable per-call state becomes explicit
state passing.
-/

namespace VideoStreamer

/-! ## Frame channel

`MJPEGStreamer.start` and `MJPEGDuoStreamer.start` create
`multiprocessing.Queue(1)`: a queue of capacity one.  `put_nowait` on a
full queue raises `queue.Full`; `get_nowait` on an empty queue raises
`queue.Empty`.  `Camera._write_data` wraps the put in
`try/except queue.Full: pass`, so a put on a full channel silently drops
the newly produced value and keeps the occupant. -/

/-- A capacity-one queue: the single slot either holds a value or is empty. -/
structure FrameQueue (α : Type) where
  slot : Option α
deriving Repr, DecidableEq

/-- The empty capacity-one queue, as freshly created by the streamer. -/
def FrameQueue.empty (α : Type) : FrameQueue α := ⟨none⟩

/-- `put_nowait`: store the value if the slot is free and report success;
on a full queue the put fails (`queue.Full`) and the queue is unchanged. -/
def FrameQueue.putNowait {α : Type} (q : FrameQueue α) (x : α) :
    FrameQueue α × Bool :=
  match q.slot with
  | none => (⟨some x⟩, true)
  | some _ => (q, false)

/-- `get_nowait`: return the stored value and empty the slot, or report
empty (`queue.Empty`, modelled as `none`). -/
def FrameQueue.getNowait {α : Type} (q : FrameQueue α) :
    Option α × FrameQueue α :=
  match q.slot with
  | none => (none, q)
  | some x => (some x, ⟨none⟩)

/-- `Camera._write_data` on the queue path: when the data is not `None`,
try `put_nowait`; on `queue.Full` silently drop the new data; only a
successful put refreshes `_write_successfull_timestamp` to the current
time.  Returns the updated queue and timestamp. -/
def writeDataQueue {α : Type} (now : Int) (q : FrameQueue α) (ts : Int)
    (data : Option α) : FrameQueue α × Int :=
  match data with
  | none => (q, ts)
  | some d =>
    match q.putNowait d with
    | (q', true) => (q', now)
    | (q', false) => (q', ts)

/-! ## Producer polling loop

`Camera.poll_image` sets `_write_successfull_timestamp := time.time()`,
then loops: run `_poll_once`; a `KeyboardInterrupt`/`BrokenPipeError`
exits the process, a generic exception is logged and the loop continues
(skipping the idle check of the `else:` branch), and otherwise the loop
breaks when `time.time() - _write_successfull_timestamp >
Camera.FULL_QUEUE_TIMEOUT`.  Only a successful queue put inside
`_write_data` refreshes the timestamp; the `IO`-sink branch
(`self._output.write(data)`) never does. -/

/-- The idle threshold `Camera.FULL_QUEUE_TIMEOUT` (60 time units). -/
def FULL_QUEUE_TIMEOUT : Int := 60

/-- One iteration of `Camera.poll_image`, abstracting `_poll_once` to its
observable effects: whether it raised a generic exception, the time of a
successful queue put during the cycle (if any), and the clock value
`time.time()` read at the idle check after the cycle. -/
structure PollCycle where
  raises : Bool
  putTime : Option Int
  checkTime : Int
deriving Repr, DecidableEq

/-- One loop iteration of `Camera.poll_image`: the timestamp is refreshed
by a successful put during `_poll_once`; when the cycle raised, the idle
check is skipped; otherwise the loop breaks when the elapsed time since
the last successful put exceeds `FULL_QUEUE_TIMEOUT`.  Returns the new
timestamp and whether the loop terminated. -/
def pollLoopStep (ts : Int) (c : PollCycle) : Int × Bool :=
  let ts' := c.putTime.getD ts
  if c.raises then (ts', false)
  else (ts', decide (c.checkTime - ts' > FULL_QUEUE_TIMEOUT))

/-- Run `Camera.poll_image`'s loop over a finite trace of cycles starting
from timestamp `ts`; returns the index of the cycle at whose end the loop
terminated itself, or `none` if it was still running after the trace. -/
def runPollLoop (ts : Int) : List PollCycle → Option Nat
  | [] => none
  | c :: rest =>
    match pollLoopStep ts c with
    | (_, true) => some 0
    | (ts', false) => (runPollLoop ts' rest).map (· + 1)

/-- `Camera._write_data` on a non-queue sink (the `IO`/transcode path):
`self._output.write(data)` is performed and the timestamp is left
untouched.  The sink is modelled as the list of buffers written so far. -/
def writeDataSink {α : Type} (sink : List α) (ts : Int) (data : α) :
    List α × Int :=
  (sink ++ [data], ts)

/-! ## Dual-source poll cycle

`LimaCameraDuo._poll_once`: read the `video_live` flags (primary wins,
else secondary when configured); on any exception while reading the
flags/counter the `else:` block is skipped entirely.  With a selected
source, when the single shared `_last_frame_number` differs from the
polled counter, `_get_image` fetches and decodes the frame; `_get_image`
catches its own failures and returns `None` fields, in which case nothing
is written and `_last_frame_number` is not updated; on success the data is
written and `_last_frame_number` becomes the frame number decoded from the
header.  `_last_use_secondary` is updated to the cycle's selection
(`None` when no source is live). -/

/-- Environment of one `LimaCameraDuo._poll_once` cycle: the device
attribute reads and the outcome `_get_image` would produce for either
source (`some n` = successful fetch whose decoded header carries frame
number `n`; `none` = `_get_image` returned its `None` fields). -/
structure DuoPollEnv where
  attrFail : Bool
  primaryLive : Bool
  secondaryExists : Bool
  secondaryLive : Bool
  primaryCounter : Int
  secondaryCounter : Int
  fetchPrimary : Option Int
  fetchSecondary : Option Int
deriving Repr, DecidableEq

/-- Mutable state of `LimaCameraDuo` across poll cycles: the single shared
`_last_frame_number` and `_last_use_secondary`. -/
structure DuoPollState where
  lastFrameNumber : Int
  lastUseSecondary : Option Bool
deriving Repr, DecidableEq

/-- The state right after `LimaCameraDuo.__init__`:
`_last_frame_number = -1`, `_last_use_secondary = None`. -/
def DuoPollState.init : DuoPollState := ⟨-1, none⟩

/-- Source selection of `_poll_once`: primary if its `video_live` flag is
set, else the secondary if configured and live, else none.  Returns the
`use_secondary` flag and the polled counter of the selected source. -/
def duoSelect (e : DuoPollEnv) : Option (Bool × Int) :=
  if e.primaryLive then some (false, e.primaryCounter)
  else if e.secondaryExists && e.secondaryLive then
    some (true, e.secondaryCounter)
  else none

/-- One `LimaCameraDuo._poll_once` cycle.  Returns the new state and
whether a frame was fetched, decoded and written to the channel. -/
def duoPollOnce (st : DuoPollState) (e : DuoPollEnv) :
    DuoPollState × Bool :=
  if e.attrFail then (st, false)
  else
    match duoSelect e with
    | some (useSec, cnt) =>
      if st.lastFrameNumber ≠ cnt then
        match (if useSec then e.fetchSecondary else e.fetchPrimary) with
        | some fn => (⟨fn, some useSec⟩, true)
        | none => (⟨st.lastFrameNumber, some useSec⟩, false)
      else (⟨st.lastFrameNumber, some useSec⟩, false)
    | none => (⟨st.lastFrameNumber, none⟩, false)

/-! ## Raw frame header decode

`LimaCamera._get_image` / `LimaCameraDuo._get_image` unpack the header
`struct.unpack(">IHHqiiHHHH", img_data[1][:hsize])`: big-endian 32-bit
magic, two 16-bit fields (the second is the image mode), a signed 64-bit
frame number, signed 32-bit width and height, then four reserved 16-bit
fields — 32 bytes in total; the payload follows at offset `hsize`.
`struct.unpack` raises (`struct.error`) exactly when the sliced buffer is
shorter than 32 bytes; the duo variant catches this and returns `None`
fields.  No field value is validated. -/

/-- Size in bytes of the packed header format `>IHHqiiHHHH`
(`struct.calcsize`). -/
def hsize : Nat := 32

/-- Big-endian interpretation of a byte list as an unsigned number. -/
def beBytesToNat (bs : List Nat) : Nat :=
  bs.foldl (fun acc b => acc * 256 + b) 0

/-- Reinterpret a `w`-bit unsigned value as two's-complement signed. -/
def toSigned (w : Nat) (n : Nat) : Int :=
  if n < 2 ^ (w - 1) then (n : Int) else (n : Int) - 2 ^ w

/-- The header decode of `_get_image`: on a buffer of at least `hsize`
bytes, return the frame sequence number (signed 64-bit at offset 8), the
width and height (signed 32-bit at offsets 16 and 20) and the payload
offset `hsize`; on a shorter buffer `struct.unpack` fails and the decode
yields `none`.  Pure: no state, no side effects. -/
def decodeHeader (buf : List Nat) : Option (Int × Int × Int × Nat) :=
  if buf.length < hsize then none
  else
    some (toSigned 64 (beBytesToNat ((buf.drop 8).take 8)),
          toSigned 32 (beBytesToNat ((buf.drop 16).take 4)),
          toSigned 32 (beBytesToNat ((buf.drop 20).take 4)),
          hsize)

/-! ## Dual-source demultiplexing and transform pipeline

`LimaCameraDuo.get_jpeg(data, size, dont_resize)`: attribute the raw
buffer to a camera by comparing `len(data)` against each camera's
`width * height * VIDEO_BYTES[video_mode]`; decode the buffer with PIL at
that camera's native size and mode; then, unless `dont_resize`, apply the
configured resize (bilinear) and after it the configured center-crop,
each guarded by a `try/except` around the per-camera configuration
lookup and by a positivity test; then rotation and the two flips.  The
image is modelled as a term recording the PIL operations applied. -/

/-- A PIL image, abstracted to the constructing operation sequence:
`frombytes mode size`, `resize target`, `crop box`, the rotations and
flips. -/
inductive Img where
  | frombytes (mode : String) (size : Int × Int) : Img
  | resizeTo (i : Img) (target : Int × Int) : Img
  | cropBox (i : Img) (box : Int × Int × Int × Int) : Img
  | rot90 (i : Img) : Img
  | rot180 (i : Img) : Img
  | rot270 (i : Img) : Img
  | flipLR (i : Img) : Img
  | flipTB (i : Img) : Img
deriving Repr, DecidableEq

/-- A per-camera pair parameter (`size`/`crop` configuration): Python
`None`, a single `(w, h)` tuple shared by both cameras, or a list of
per-camera tuples. -/
inductive DuoPairParam where
  | nothing : DuoPairParam
  | single (w h : Int) : DuoPairParam
  | perCamera (xs : List (Int × Int)) : DuoPairParam
deriving Repr, DecidableEq

/-- The `try:` lookup `param[camera_index]` followed by
`int(item[0]) / int(item[1])`: on `None`, indexing raises; on a single
`(w, h)` tuple, `param[camera_index]` yields a bare `int` and `item[0]`
raises; on a list of tuples the lookup succeeds when the index is in
range.  `none` models the `except: pass` outcome. -/
def DuoPairParam.tryGet : DuoPairParam → Nat → Option (Int × Int)
  | .nothing, _ => none
  | .single _ _, _ => none
  | .perCamera xs, i => xs[i]?

/-- A per-camera integer parameter (`rotate` configuration): `None`, a
single shared `int`, or a list of per-camera ints. -/
inductive DuoIntParam where
  | nothing : DuoIntParam
  | single (n : Int) : DuoIntParam
  | perCamera (xs : List Int) : DuoIntParam
deriving Repr, DecidableEq

/-- The `try: int(self._images_rotate[camera_index])` lookup: indexing
`None` or a bare `int` raises (`except: pass`); a list succeeds when the
index is in range. -/
def DuoIntParam.tryGet : DuoIntParam → Nat → Option Int
  | .nothing, _ => none
  | .single _, _ => none
  | .perCamera xs, i => xs[i]?

/-- A per-camera flip parameter: `None`, a single shared
`(horizontal, vertical)` tuple of booleans, or a list of per-camera
tuples. -/
inductive DuoFlipParam where
  | nothing : DuoFlipParam
  | single (h v : Bool) : DuoFlipParam
  | perCamera (xs : List (Bool × Bool)) : DuoFlipParam
deriving Repr, DecidableEq

/-- The `try: bool(self._images_flip[camera_index][j])` lookup: on `None`
or a single tuple (whose item is a bare `bool`, not subscriptable) the
inner indexing raises; a list of tuples succeeds when in range. -/
def DuoFlipParam.tryGet : DuoFlipParam → Nat → Option (Bool × Bool)
  | .nothing, _ => none
  | .single _ _, _ => none
  | .perCamera xs, i => xs[i]?

/-- `LimaCameraDuo.VIDEO_BYTES`: bytes per pixel of a video mode; a
missing key raises `KeyError` (`none`). -/
def VIDEO_BYTES (mode : String) : Option Int :=
  if mode = "RGB24" then some 3
  else if mode = "Y8" then some 1
  else none

/-- `LimaCameraDuo.VIDEO_FORMATS`: the PIL image mode of a video mode; a
missing key raises `KeyError` (`none`, defaulted to `"RGB"` by the
caller). -/
def VIDEO_FORMATS (mode : String) : Option String :=
  if mode = "RGB24" then some "RGB"
  else if mode = "Y8" then some "L"
  else none

/-- Index a two-element Python list (`self._widths[camera_index]` with
`camera_index ∈ {0, 1}`). -/
def pick {α : Type} (p : α × α) (i : Nat) : α :=
  if i = 0 then p.1 else p.2

/-- The per-camera static facts of a `LimaCameraDuo` instance:
`_widths`, `_heights`, `_video_modes` (index 0 = primary, 1 = secondary)
and the configured transform parameters. -/
structure DuoCamera where
  widths : Int × Int
  heights : Int × Int
  videoModes : String × String
  imagesResize : DuoPairParam
  imagesCrop : DuoPairParam
  imagesRotate : DuoIntParam
  imagesFlip : DuoFlipParam
deriving Repr, DecidableEq

/-- The expected byte length of a frame of camera `i`:
`width * height * VIDEO_BYTES[video_mode]`; `none` when the mode is not
in `VIDEO_BYTES` (the `except:` branch of `get_jpeg`). -/
def DuoCamera.dataSize (cam : DuoCamera) (i : Nat) : Option Int :=
  (VIDEO_BYTES (pick cam.videoModes i)).map
    (fun b => pick cam.widths i * pick cam.heights i * b)

/-- Demultiplexing step of `get_jpeg`: `camera_index = 0` when the buffer
length equals the primary's expected size (checked first), else `1` when
it equals the secondary's, else the frame is reported corrupted
(`none`). -/
def DuoCamera.cameraIndexOf (cam : DuoCamera) (n : Nat) : Option Nat :=
  match cam.dataSize 0, cam.dataSize 1 with
  | some ds0, some ds1 =>
    if (n : Int) = ds0 then some 0
    else if (n : Int) = ds1 then some 1
    else none
  | _, _ => none

/-- `LimaCameraDuo.get_jpeg`, modelled on the length of the delivered
buffer (`none` = Python `None` input).  Returns `none` for every
`return None, None` path, otherwise the attributed `camera_index` and the
term describing the PIL image that is encoded to JPEG. -/
def DuoCamera.getJpeg (cam : DuoCamera) (dataLen : Option Nat)
    (dontResize : Bool) : Option (Nat × Img) :=
  match dataLen with
  | none => none
  | some n =>
    match cam.cameraIndexOf n with
    | none => none
    | some idx =>
      let fmt := (VIDEO_FORMATS (pick cam.videoModes idx)).getD "RGB"
      let sz0 : Int × Int := (pick cam.widths idx, pick cam.heights idx)
      let img0 := Img.frombytes fmt sz0
      let step1 : Img × (Int × Int) :=
        if dontResize then (img0, sz0)
        else
          match cam.imagesResize.tryGet idx with
          | some (rw, rh) =>
            if 0 < rw ∧ 0 < rh then (Img.resizeTo img0 (rw, rh), (rw, rh))
            else (img0, sz0)
          | none => (img0, sz0)
      let step2 : Img × (Int × Int) :=
        if dontResize then step1
        else
          match cam.imagesCrop.tryGet idx with
          | some (cw, ch) =>
            if 0 < cw ∧ 0 < ch then
              (Img.cropBox step1.1
                 (Int.fdiv (step1.2.1 - cw) 2, Int.fdiv (step1.2.2 - ch) 2,
                  Int.fdiv (step1.2.1 + cw) 2, Int.fdiv (step1.2.2 + ch) 2),
               (cw, ch))
            else step1
          | none => step1
      let img3 :=
        match cam.imagesRotate.tryGet idx with
        | some r =>
          if r = 90 then Img.rot90 step2.1
          else if r = 180 then Img.rot180 step2.1
          else if r = 270 then Img.rot270 step2.1
          else step2.1
        | none => step2.1
      let img4 :=
        match cam.imagesFlip.tryGet idx with
        | some (fh, _) => if fh then Img.flipLR img3 else img3
        | none => img3
      let img5 :=
        match cam.imagesFlip.tryGet idx with
        | some (_, fv) => if fv then Img.flipTB img4 else img4
        | none => img4
      some (idx, img5)

/-! ## Per-client session management

`create_mjpegduo_app` keeps `client2streamer`, a dict from the client's
peer `(host, port)` to its `MJPEGDuoStreamer`.  `video_feed(request)`
looks the client up; on `KeyError`, when
`len(client2streamer) >= config.max_concurrent_streams` it takes
`list(client2streamer.keys())[0]` — the first key in insertion order —
stops that streamer and pops it, then creates a new streamer and inserts
it.  Python dicts preserve insertion order, so the map is modelled as an
insertion-ordered association list; sessions are identified by the order
in which streamers were created (a fresh increasing id). -/

/-- The HTTP peer identity `(request.client.host, request.client.port)`. -/
structure Client where
  host : String
  port : Nat
deriving Repr, DecidableEq

/-- Failures escaping `video_feed`. -/
inductive FeedError where
  | indexError : FeedError
deriving Repr, DecidableEq

/-- Dict lookup `client2streamer[(host, port)]` on the insertion-ordered
association list. -/
def lookupClient (m : List (Client × Nat)) (c : Client) : Option Nat :=
  (m.find? (fun p => p.1 = c)).map Prod.snd

/-- The session-management core of `video_feed`: return the existing
streamer for the client if present; otherwise, when the live count has
reached `max_concurrent_streams`, stop and remove the first-inserted
session (on an empty dict `list(keys)[0]` raises `IndexError`), then
append the newly created session `fresh`.  Returns the new map and the
id of the stopped session, if any. -/
def videoFeed (maxStreams : Int) (m : List (Client × Nat)) (c : Client)
    (fresh : Nat) : Except FeedError (List (Client × Nat) × Option Nat) :=
  match lookupClient m c with
  | some _ => .ok (m, none)
  | none =>
    if (m.length : Int) ≥ maxStreams then
      match m with
      | [] => .error .indexError
      | (_, s) :: rest => .ok (rest ++ [(c, fresh)], some s)
    else .ok (m ++ [(c, fresh)], none)

/-- The observable state of the MJPEGDUO endpoint: the live session map,
the ids of the sessions stopped so far, and the next fresh session id. -/
structure FeedTrace where
  map : List (Client × Nat)
  stopped : List Nat
  fresh : Nat
deriving Repr, DecidableEq

/-- Serve one request: apply `videoFeed`, record a stopped session, and
advance the id counter; an uncaught `IndexError` leaves the state
unchanged. -/
def feedStep (maxStreams : Int) (st : FeedTrace) (c : Client) : FeedTrace :=
  match videoFeed maxStreams st.map c st.fresh with
  | .ok (m, some ev) => ⟨m, st.stopped ++ [ev], st.fresh + 1⟩
  | .ok (m, none) => ⟨m, st.stopped, st.fresh + 1⟩
  | .error _ => st

/-- Serve a sequence of requests starting from the empty session map. -/
def runFeeds (maxStreams : Int) (cs : List Client) : FeedTrace :=
  cs.foldl (feedStep maxStreams) ⟨[], [], 0⟩

/-- The three distinct clients of the eviction scenario. -/
def clientA : Client := ⟨"10.0.0.1", 40001⟩

/-- Second scenario client. -/
def clientB : Client := ⟨"10.0.0.2", 40002⟩

/-- Third scenario client. -/
def clientC : Client := ⟨"10.0.0.3", 40003⟩

/-! ## Helper lemmas -/

/-- Big-endian encoding of `n` into `k` bytes, the inverse direction of
the header decode (`struct.pack` of one unsigned field). -/
def beBytes : Nat → Nat → List Nat
  | 0, _ => []
  | k + 1, n => beBytes k (n / 256) ++ [n % 256]

/-- `struct.pack(">IHHqiiHHHH", ...)`, the wire form of a raw frame
header; the signed fields are given by their unsigned two's-complement
image. -/
def encodeHeader (magic f1 mode seq w h r1 r2 r3 r4 : Nat) : List Nat :=
  beBytes 4 magic ++ beBytes 2 f1 ++ beBytes 2 mode ++ beBytes 8 seq ++
    beBytes 4 w ++ beBytes 4 h ++ beBytes 2 r1 ++ beBytes 2 r2 ++
    beBytes 2 r3 ++ beBytes 2 r4

theorem beBytes_length (k : Nat) : ∀ n, (beBytes k n).length = k := by
  induction k with
  | zero => intro n; rfl
  | succ k ih => intro n; simp [beBytes, ih]

theorem beBytesToNat_append_singleton (l : List Nat) (b : Nat) :
    beBytesToNat (l ++ [b]) = beBytesToNat l * 256 + b := by
  simp [beBytesToNat, List.foldl_append]

theorem beBytesToNat_beBytes (k : Nat) :
    ∀ n, n < 256 ^ k → beBytesToNat (beBytes k n) = n := by
  induction k with
  | zero =>
    intro n hn
    simp [beBytes, beBytesToNat]
    omega
  | succ k ih =>
    intro n hn
    rw [beBytes, beBytesToNat_append_singleton, ih (n / 256)]
    · omega
    · rw [Nat.div_lt_iff_lt_mul (by norm_num)]
      calc n < 256 ^ (k + 1) := hn
        _ = 256 ^ k * 256 := by ring

theorem decodeHeader_segments (p d e f r : List Nat)
    (hp : p.length = 8) (hd : d.length = 8) (he : e.length = 4)
    (hf : f.length = 4) (hr : 8 ≤ r.length) :
    decodeHeader (p ++ (d ++ (e ++ (f ++ r)))) =
      some (toSigned 64 (beBytesToNat d), toSigned 32 (beBytesToNat e),
        toSigned 32 (beBytesToNat f), hsize) := by
  have hlen : (p ++ (d ++ (e ++ (f ++ r)))).length = 24 + r.length := by
    simp [hp, hd, he, hf]; omega
  have hdrop8 : (p ++ (d ++ (e ++ (f ++ r)))).drop 8 = d ++ (e ++ (f ++ r)) :=
    List.drop_left' hp
  have hdrop16 : (p ++ (d ++ (e ++ (f ++ r)))).drop 16 = e ++ (f ++ r) := by
    have : p ++ (d ++ (e ++ (f ++ r))) = (p ++ d) ++ (e ++ (f ++ r)) := by
      simp [List.append_assoc]
    rw [this, List.drop_left' (by simp [hp, hd])]
  have hdrop20 : (p ++ (d ++ (e ++ (f ++ r)))).drop 20 = f ++ r := by
    have : p ++ (d ++ (e ++ (f ++ r))) = ((p ++ d) ++ e) ++ (f ++ r) := by
      simp [List.append_assoc]
    rw [this, List.drop_left' (by simp [hp, hd, he])]
  rw [decodeHeader, if_neg (by rw [hlen, hsize]; omega), hdrop8, hdrop16,
    hdrop20, List.take_left' hd, List.take_left' he, List.take_left' hf]

theorem decodeHeader_encodeHeader (magic f1 mode seq w h r1 r2 r3 r4 : Nat)
    (payload : List Nat) (hseq : seq < 2 ^ 64) (hw : w < 2 ^ 32)
    (hh : h < 2 ^ 32) :
    decodeHeader (encodeHeader magic f1 mode seq w h r1 r2 r3 r4 ++ payload) =
      some (toSigned 64 seq, toSigned 32 w, toSigned 32 h, hsize) := by
  have hb : encodeHeader magic f1 mode seq w h r1 r2 r3 r4 ++ payload =
      (beBytes 4 magic ++ beBytes 2 f1 ++ beBytes 2 mode) ++
        (beBytes 8 seq ++ (beBytes 4 w ++ (beBytes 4 h ++
          (beBytes 2 r1 ++ beBytes 2 r2 ++ beBytes 2 r3 ++ beBytes 2 r4 ++
            payload)))) := by
    simp [encodeHeader, List.append_assoc]
  rw [hb, decodeHeader_segments _ _ _ _ _ (by simp [beBytes_length])
      (beBytes_length 8 seq) (beBytes_length 4 w) (beBytes_length 4 h)
      (by simp [beBytes_length]; omega),
    beBytesToNat_beBytes 8 seq (by norm_num at hseq ⊢; omega),
    beBytesToNat_beBytes 4 w (by norm_num at hw ⊢; omega),
    beBytesToNat_beBytes 4 h (by norm_num at hh ⊢; omega)]

/-- With no successful put and no exception, a poll cycle keeps the
timestamp and breaks exactly when the idle check trips. -/
theorem pollLoopStep_no_put (ts : Int) (c : PollCycle) (hr : c.raises = false)
    (hp : c.putTime = none) :
    pollLoopStep ts c = (ts, decide (c.checkTime - ts > FULL_QUEUE_TIMEOUT)) := by
  simp [pollLoopStep, hr, hp]

/-- Over a trace of exception-free cycles with no successful put, the
polling loop self-terminates exactly at the first cycle whose idle check
sees more than `FULL_QUEUE_TIMEOUT` elapsed. -/
theorem runPollLoop_first_break (ts : Int) (cs : List PollCycle) :
    ∀ (k : Nat) (c : PollCycle), cs[k]? = some c →
      (∀ d ∈ cs, d.raises = false) →
      (∀ d ∈ cs, d.putTime = none) →
      c.checkTime - ts > FULL_QUEUE_TIMEOUT →
      (∀ j d, j < k → cs[j]? = some d →
        d.checkTime - ts ≤ FULL_QUEUE_TIMEOUT) →
      runPollLoop ts cs = some k := by
  induction cs with
  | nil => intro k c hk; simp at hk
  | cons c0 rest ih =>
    intro k c hk hraise hput hafter hbefore
    have hr0 : c0.raises = false := hraise c0 (by simp)
    have hp0 : c0.putTime = none := hput c0 (by simp)
    cases k with
    | zero =>
      have hc : c0 = c := by simpa using hk
      rw [runPollLoop, pollLoopStep_no_put ts c0 hr0 hp0]
      simp [hc, hafter]
    | succ k =>
      have h0 : c0.checkTime - ts ≤ FULL_QUEUE_TIMEOUT :=
        hbefore 0 c0 (Nat.succ_pos k) (by simp)
      rw [runPollLoop, pollLoopStep_no_put ts c0 hr0 hp0]
      have hdec : decide (c0.checkTime - ts > FULL_QUEUE_TIMEOUT) = false := by
        simpa using not_lt.mpr h0
      rw [hdec]
      have hrest : runPollLoop ts rest = some k := by
        refine ih k c (by simpa using hk) ?_ ?_ hafter ?_
        · intro d hd; exact hraise d (List.mem_cons_of_mem _ hd)
        · intro d hd; exact hput d (List.mem_cons_of_mem _ hd)
        · intro j d hj hjd
          exact hbefore (j + 1) d (Nat.succ_lt_succ hj) (by simpa using hjd)
      simp [hrest]

/-- Invariant of the session state reachable from the empty map: every
live session id is below the fresh counter, and session ids strictly
increase along the insertion-ordered map (so the first-inserted entry is
the earliest-created live session). -/
def goodTrace (st : FeedTrace) : Prop :=
  (∀ p ∈ st.map, p.2 < st.fresh) ∧
    st.map.Pairwise (fun p q => p.2 < q.2)

/-- `video_feed` on an already-known client reuses its streamer. -/
theorem feedStep_reuse (maxStreams : Int) (m : List (Client × Nat))
    (stopped : List Nat) (fresh : Nat) (c : Client) (s : Nat)
    (hl : lookupClient m c = some s) :
    feedStep maxStreams ⟨m, stopped, fresh⟩ c = ⟨m, stopped, fresh + 1⟩ := by
  simp [feedStep, videoFeed, hl]

/-- `video_feed` at capacity on an empty map raises `IndexError`, leaving
the state untouched. -/
theorem feedStep_error (maxStreams : Int) (stopped : List Nat) (fresh : Nat)
    (c : Client) (hge : maxStreams ≤ 0) :
    feedStep maxStreams ⟨[], stopped, fresh⟩ c = ⟨[], stopped, fresh⟩ := by
  simp [feedStep, videoFeed, lookupClient, hge]

/-- `video_feed` at capacity stops and removes the first-inserted session
and appends the new one. -/
theorem feedStep_evict (maxStreams : Int) (g : Client) (s : Nat)
    (rest : List (Client × Nat)) (stopped : List Nat) (fresh : Nat)
    (c : Client) (hl : lookupClient ((g, s) :: rest) c = none)
    (hge : maxStreams ≤ (rest.length : Int) + 1) :
    feedStep maxStreams ⟨(g, s) :: rest, stopped, fresh⟩ c =
      ⟨rest ++ [(c, fresh)], stopped ++ [s], fresh + 1⟩ := by
  simp [feedStep, videoFeed, hl, hge]

/-- `video_feed` below capacity appends the new session. -/
theorem feedStep_add (maxStreams : Int) (m : List (Client × Nat))
    (stopped : List Nat) (fresh : Nat) (c : Client)
    (hl : lookupClient m c = none) (hlt : ((m.length : Int)) < maxStreams) :
    feedStep maxStreams ⟨m, stopped, fresh⟩ c =
      ⟨m ++ [(c, fresh)], stopped, fresh + 1⟩ := by
  simp [feedStep, videoFeed, hl, not_le.mpr hlt]

/-- Serving one request preserves the session-state invariant. -/
theorem feedStep_good (maxStreams : Int) (st : FeedTrace) (c : Client)
    (h : goodTrace st) : goodTrace (feedStep maxStreams st c) := by
  obtain ⟨m, stopped, fresh⟩ := st
  obtain ⟨hb, hp⟩ := h
  simp only [goodTrace] at hb hp ⊢
  cases hl : lookupClient m c with
  | some s =>
    rw [feedStep_reuse maxStreams m stopped fresh c s hl]
    exact ⟨fun p hmem => Nat.lt_succ_of_lt (hb p hmem), hp⟩
  | none =>
    by_cases hge : (m.length : Int) ≥ maxStreams
    · cases m with
      | nil =>
        rw [feedStep_error maxStreams stopped fresh c (by simpa using hge)]
        exact ⟨hb, hp⟩
      | cons q rest =>
        rw [feedStep_evict maxStreams q.1 q.2 rest stopped fresh c
          (by simpa using hl) (by simpa using hge)]
        constructor
        · intro p hmem
          simp only at hmem
          rcases List.mem_append.mp hmem with h1 | h1
          · exact Nat.lt_succ_of_lt (hb p (List.mem_cons_of_mem _ h1))
          · simp at h1; simp [h1]
        · simp only
          rw [List.pairwise_append]
          refine ⟨(List.pairwise_cons.mp hp).2, List.pairwise_singleton _ _, ?_⟩
          intro a ha b hb'
          simp at hb'
          rw [hb']
          exact hb a (List.mem_cons_of_mem _ ha)
    · rw [feedStep_add maxStreams m stopped fresh c hl (not_le.mp hge)]
      constructor
      · intro p hmem
        simp only at hmem
        rcases List.mem_append.mp hmem with h1 | h1
        · exact Nat.lt_succ_of_lt (hb p h1)
        · simp at h1; simp [h1]
      · simp only
        rw [List.pairwise_append]
        refine ⟨hp, List.pairwise_singleton _ _, ?_⟩
        intro a ha b hb'
        simp at hb'
        rw [hb']
        exact hb a ha

/-- Serving one request never pushes the live-session count above the
configured maximum. -/
theorem feedStep_length (maxStreams : Int) (st : FeedTrace) (c : Client)
    (h : (st.map.length : Int) ≤ maxStreams) :
    (((feedStep maxStreams st c).map.length : Int)) ≤ maxStreams := by
  obtain ⟨m, stopped, fresh⟩ := st
  simp only at h
  cases hl : lookupClient m c with
  | some s => rw [feedStep_reuse maxStreams m stopped fresh c s hl]; exact h
  | none =>
    by_cases hge : (m.length : Int) ≥ maxStreams
    · cases m with
      | nil =>
        rw [feedStep_error maxStreams stopped fresh c (by simpa using hge)]
        exact h
      | cons q rest =>
        rw [feedStep_evict maxStreams q.1 q.2 rest stopped fresh c
          (by simpa using hl) (by simpa using hge)]
        simp only [List.length_append, List.length_cons, List.length_nil]
        simp only [List.length_cons] at h
        push_cast at h ⊢
        omega
    · rw [feedStep_add maxStreams m stopped fresh c hl (not_le.mp hge)]
      simp only [List.length_append, List.length_cons, List.length_nil]
      push_cast
      omega

/-- Folded versions of the two preservation lemmas. -/
theorem foldl_feedStep_length (maxStreams : Int) (cs : List Client) :
    ∀ st : FeedTrace, (st.map.length : Int) ≤ maxStreams →
      (((cs.foldl (feedStep maxStreams) st).map.length : Int)) ≤ maxStreams := by
  induction cs with
  | nil => intro st h; exact h
  | cons c rest ih =>
    intro st h
    exact ih _ (feedStep_length maxStreams st c h)

theorem foldl_feedStep_good (maxStreams : Int) (cs : List Client) :
    ∀ st : FeedTrace, goodTrace st →
      goodTrace (cs.foldl (feedStep maxStreams) st) := by
  induction cs with
  | nil => intro st h; exact h
  | cons c rest ih =>
    intro st h
    exact ih _ (feedStep_good maxStreams st c h)

/-! ## Claim theorems -/

/-- Claim C1, counterexample.  The claim states that the frame channel is
latest-value-wins: after putting F1 then F2 with no intervening get,
`get_nowait()` returns F2 and never F1, the previous unread value being
the one dropped.  On the code it is the opposite: `_write_data` does
`put_nowait` under `except queue.Full: pass`, so the second put on the
full capacity-1 queue drops the NEW frame; putting 1 then 2 and reading
back yields frame 1, not frame 2. -/
theorem channel_keeps_first_put :
    ((((FrameQueue.empty Nat).putNowait 1).1.putNowait 2).1.getNowait).1
        = some 1 ∧
      (some 1 : Option Nat) ≠ some 2 := by
  decide

/-- Claim C1, amended.  `put(frame)` is non-blocking (a total step
function), but when the channel is full it is the NEWLY produced value
that is dropped while the previous unread value is preserved: a put on a
full slot returns the slot unchanged with the `queue.Full` outcome, and
after putting F1 then F2 with no intervening get, `get_nowait()` returns
F1. -/
theorem channel_first_value_wins {α : Type} (y x f1 f2 : α) :
    (FrameQueue.mk (some y)).putNowait x = (⟨some y⟩, false) ∧
      ((((FrameQueue.empty α).putNowait f1).1.putNowait f2).1.getNowait).1
        = some f1 := by
  exact ⟨rfl, rfl⟩

/-- Two sources configured with identical expected byte lengths
(640 × 480 × 3 on both), as in claim C2. -/
def duoCameraEqualSizes : DuoCamera :=
  ⟨(640, 640), (480, 480), ("RGB24", "RGB24"),
    .nothing, .nothing, .nothing, .nothing⟩

/-- Claim C2, counterexample.  The claim states that when the two sources
have identical expected byte lengths, origin disambiguation raises
`AmbiguousFrameError` rather than attributing the frame to either source.
No such error exists in the code: `get_jpeg` compares against the
primary's expected size first, so a buffer of the shared length is
silently attributed to the primary (camera index 0). -/
theorem equal_sizes_attributed_to_primary :
    duoCameraEqualSizes.dataSize 0 = duoCameraEqualSizes.dataSize 1 ∧
      (duoCameraEqualSizes.getJpeg (some 921600) false).map Prod.fst
        = some 0 := by
  decide

/-- Claim C2, amended.  Whenever the two configured sources have
identical expected byte lengths, a delivered buffer of that length is
attributed to the primary source (camera index 0), whose size comparison
is performed first; no ambiguity is detected or raised. -/
theorem equal_sizes_no_ambiguity_error (cam : DuoCamera) (n : Nat) (d : Int)
    (dontResize : Bool) (h0 : cam.dataSize 0 = some d)
    (h1 : cam.dataSize 1 = some d) (hn : (n : Int) = d) :
    (cam.getJpeg (some n) dontResize).map Prod.fst = some 0 := by
  simp [DuoCamera.getJpeg, DuoCamera.cameraIndexOf, h0, h1, hn]

/-- Claim C2, amended, witness at the equal-size configuration. -/
theorem equal_sizes_no_ambiguity_error_witness :
    (duoCameraEqualSizes.getJpeg (some 921600) false).map Prod.fst
      = some 0 :=
  equal_sizes_no_ambiguity_error duoCameraEqualSizes 921600 921600 false
    (by decide) (by decide) (by decide)

/-- The dual camera of the claim C7 scenario: primary 640 × 480 RGB24,
secondary 320 × 240 Y8, `crop = (0, 0)` and `resize = (0, 0)` given as
single shared tuples, rotation 0 and no flips. -/
def duoCameraScenario : DuoCamera :=
  ⟨(640, 320), (480, 240), ("RGB24", "Y8"),
    .single 0 0, .single 0 0, .single 0, .single false false⟩

/-- Claim C7.  With the primary source at 640 × 480 RGB24 (921600 bytes
per frame) and the secondary at 320 × 240 Y8 (76800 bytes per frame),
and crop and resize configured as the no-op (0, 0), `get_jpeg` on a
buffer of length 76800 attributes the frame to the secondary source
(camera index 1) and decodes it at size 320 × 240 in PIL mode "L", with
no further transform applied. -/
theorem secondary_buffer_attribution :
    duoCameraScenario.getJpeg (some 76800) false
      = some (1, Img.frombytes "L" (320, 240)) := by
  decide

/-- Claim C3.  For every sequence of requests served from the empty
session map with a positive configured maximum: (a) the number of live
sessions never exceeds the maximum; (b) when a client with no existing
session arrives while the map is at (or above) the maximum, `video_feed`
stops and removes exactly the first-inserted session, whose id is the
minimum over all live sessions — the earliest-created one, FIFO, never a
more recent session — before appending the new session; (c) with
`max_concurrent_streams = 2` and distinct clients A, B, C in that order,
after C's request A's session is stopped and absent while B and C are
the live sessions. -/
theorem session_cap_fifo_eviction (maxStreams : Int) (hmax : 1 ≤ maxStreams) :
    (∀ cs : List Client,
      (((runFeeds maxStreams cs).map.length : Int)) ≤ maxStreams) ∧
    (∀ (cs : List Client) (c : Client),
      lookupClient (runFeeds maxStreams cs).map c = none →
      ((runFeeds maxStreams cs).map.length : Int) ≥ maxStreams →
      ∃ g s rest, (runFeeds maxStreams cs).map = (g, s) :: rest ∧
        feedStep maxStreams (runFeeds maxStreams cs) c =
          ⟨rest ++ [(c, (runFeeds maxStreams cs).fresh)],
            (runFeeds maxStreams cs).stopped ++ [s],
            (runFeeds maxStreams cs).fresh + 1⟩ ∧
        ∀ q ∈ (runFeeds maxStreams cs).map, s ≤ q.2) ∧
    ((runFeeds 2 [clientA, clientB, clientC]).map.map Prod.fst
        = [clientB, clientC] ∧
      (runFeeds 2 [clientA, clientB, clientC]).stopped = [0] ∧
      lookupClient (runFeeds 2 [clientA, clientB, clientC]).map clientA
        = none) := by
  have hgood : ∀ cs : List Client, goodTrace (runFeeds maxStreams cs) := by
    intro cs
    exact foldl_feedStep_good maxStreams cs ⟨[], [], 0⟩
      ⟨by intro p hp; simp at hp, List.Pairwise.nil⟩
  refine ⟨?_, ?_, by decide, by decide, by decide⟩
  · intro cs
    exact foldl_feedStep_length maxStreams cs ⟨[], [], 0⟩
      (by simpa using le_trans zero_le_one hmax)
  · intro cs c hl hge
    obtain ⟨hb, hp⟩ := hgood cs
    cases hm : (runFeeds maxStreams cs).map with
    | nil =>
      rw [hm] at hge
      simp at hge
      omega
    | cons q rest =>
      obtain ⟨g, s⟩ := q
      rw [hm] at hl hge hp
      refine ⟨g, s, rest, rfl, ?_, ?_⟩
      · have hev := feedStep_evict maxStreams g s rest
          (runFeeds maxStreams cs).stopped (runFeeds maxStreams cs).fresh c
          hl (by simpa using hge)
        have hst : runFeeds maxStreams cs =
            (⟨(g, s) :: rest, (runFeeds maxStreams cs).stopped,
              (runFeeds maxStreams cs).fresh⟩ : FeedTrace) := by
          rw [← hm]
        rw [hst]
        exact hev
      · intro p hmem
        rcases List.mem_cons.mp hmem with h1 | h1
        · exact le_of_eq (congrArg Prod.snd h1).symm
        · exact le_of_lt ((List.pairwise_cons.mp hp).1 p h1)

/-- Claim C3, witness: the A, B, C scenario at maximum 2, obtained from
the theorem. -/
theorem session_cap_fifo_eviction_witness :
    (runFeeds 2 [clientA, clientB, clientC]).map.map Prod.fst
      = [clientB, clientC] :=
  (session_cap_fifo_eviction 2 (by norm_num)).2.2.1

/-- A dual camera with both a resize target (100 × 100) and a crop
target (50 × 50) configured per camera, used against claim C4. -/
def duoCameraCropResize : DuoCamera :=
  ⟨(640, 320), (480, 240), ("RGB24", "Y8"),
    .perCamera [(100, 100), (100, 100)], .perCamera [(50, 50), (50, 50)],
    .single 0, .single false false⟩

/-- Claim C4, counterexample.  The claim states the fixed order
center-crop then resize.  The code applies them in the opposite order:
with resize 100 × 100 and crop 50 × 50 configured, the rendered image is
a crop OF the resized image — the outermost operation is the crop, whose
box (25, 25, 75, 75) is computed from the post-resize size 100 × 100; it
is not a resize of anything, as the claimed order would make it.  The two
orders are observably different here: the claimed order would deliver a
100 × 100 image, the code delivers 50 × 50. -/
theorem resize_applied_before_crop :
    duoCameraCropResize.getJpeg (some 921600) false =
      some (0, Img.cropBox
        (Img.resizeTo (Img.frombytes "RGB" (640, 480)) (100, 100))
        (25, 25, 75, 75)) ∧
    ∀ i t, Img.cropBox
        (Img.resizeTo (Img.frombytes "RGB" (640, 480)) (100, 100))
        (25, 25, 75, 75) ≠ Img.resizeTo i t := by
  exact ⟨by decide, fun i t h => by cases h⟩

/-- Claim C4, amended.  When transforms are not skipped and both targets
are configured with positive dimensions, the per-frame transform steps
are applied in the fixed order resize (bilinear) then center-crop: the
buffer is decoded at the camera's native size, resized to the configured
target — which updates the pipeline's current size — and then
center-cropped with a box computed from the post-resize size. -/
theorem resize_then_centercrop (cam : DuoCamera) (n : Nat) (idx : Nat)
    (fmt : String) (rw rh cw ch : Int)
    (hidx : cam.cameraIndexOf n = some idx)
    (hfmt : VIDEO_FORMATS (pick cam.videoModes idx) = some fmt)
    (hres : cam.imagesResize.tryGet idx = some (rw, rh))
    (hrw : 0 < rw) (hrh : 0 < rh)
    (hcrop : cam.imagesCrop.tryGet idx = some (cw, ch))
    (hcw : 0 < cw) (hch : 0 < ch)
    (hrot : cam.imagesRotate.tryGet idx = none)
    (hflip : cam.imagesFlip.tryGet idx = none) :
    cam.getJpeg (some n) false =
      some (idx, Img.cropBox
        (Img.resizeTo
          (Img.frombytes fmt (pick cam.widths idx, pick cam.heights idx))
          (rw, rh))
        (Int.fdiv (rw - cw) 2, Int.fdiv (rh - ch) 2,
          Int.fdiv (rw + cw) 2, Int.fdiv (rh + ch) 2)) := by
  simp [DuoCamera.getJpeg, hidx, hfmt, hres, hcrop, hrot, hflip,
    hrw, hrh, hcw, hch]

/-- Claim C4, amended, witness at the 100 × 100 resize / 50 × 50 crop
configuration. -/
theorem resize_then_centercrop_witness :
    duoCameraCropResize.getJpeg (some 921600) false =
      some (0, Img.cropBox
        (Img.resizeTo (Img.frombytes "RGB" (640, 480)) (100, 100))
        (25, 25, 75, 75)) := by
  have h := resize_then_centercrop duoCameraCropResize 921600 0 "RGB"
    100 100 50 50 (by decide) (by decide) (by decide) (by decide)
    (by decide) (by decide) (by decide) (by decide) (by decide) (by decide)
  rw [h]
  decide

/-- Poll cycle 1 of the claim C5 trace: only the secondary is live, its
counter reads 3, and its fetch succeeds with header frame number 3. -/
def duoEnvSec3 : DuoPollEnv := ⟨false, false, true, true, 0, 3, none, some 3⟩

/-- Poll cycle 2: the primary is live with counter 5; fetch succeeds. -/
def duoEnvPri5 : DuoPollEnv := ⟨false, true, true, false, 5, 0, some 5, none⟩

/-- Poll cycle 3: the primary is down again; the secondary is live and
its counter has advanced from 3 to 5; its fetch would succeed. -/
def duoEnvSec5 : DuoPollEnv := ⟨false, false, true, true, 0, 5, none, some 5⟩

/-- Claim C5, counterexample.  The claim states per-source change
detection: the selected source's frame is fetched if and only if that
source's counter advanced since it was last observed for that same
source.  The code keeps one shared `_last_frame_number`.  Trace: cycle 1
selects the secondary at counter 3 and fetches; cycle 2 selects the
primary at counter 5 and fetches; cycle 3 selects the secondary again,
whose counter has advanced from 3 (its last observation for that source)
to 5 — yet no fetch happens, because the shared last frame number, set
from the PRIMARY in cycle 2, already equals 5. -/
theorem shared_counter_suppresses_fetch :
    duoSelect duoEnvSec3 = some (true, 3) ∧
    duoSelect duoEnvPri5 = some (false, 5) ∧
    duoSelect duoEnvSec5 = some (true, 5) ∧
    (duoPollOnce DuoPollState.init duoEnvSec3).2 = true ∧
    (duoPollOnce (duoPollOnce DuoPollState.init duoEnvSec3).1
      duoEnvPri5).2 = true ∧
    (duoPollOnce (duoPollOnce (duoPollOnce DuoPollState.init duoEnvSec3).1
      duoEnvPri5).1 duoEnvSec5).2 = false ∧
    (3 : Int) ≠ 5 := by
  decide

/-- Claim C5, amended.  In every dual-multiplexer poll cycle, the
selected source's frame is fetched and written if and only if the flag
reads did not raise, a source is selected, the selected source's polled
counter differs from the single SHARED `_last_frame_number` — which is
updated by successful fetches from either source, so selection switches
can suppress or trigger a fetch based on the counter last written by the
other source — and the fetch itself succeeds. -/
theorem fetch_iff_shared_counter_differs (st : DuoPollState)
    (e : DuoPollEnv) :
    (duoPollOnce st e).2 = true ↔
      e.attrFail = false ∧
      ∃ useSec cnt, duoSelect e = some (useSec, cnt) ∧
        st.lastFrameNumber ≠ cnt ∧
        (if useSec then e.fetchSecondary else e.fetchPrimary).isSome = true := by
  cases ha : e.attrFail with
  | true => simp [duoPollOnce, ha]
  | false =>
    cases hs : duoSelect e with
    | none => simp [duoPollOnce, ha, hs]
    | some p =>
      obtain ⟨useSec, cnt⟩ := p
      by_cases hc : st.lastFrameNumber = cnt
      · simp [duoPollOnce, ha, hs, hc]
      · cases useSec with
        | false =>
          cases hf : e.fetchPrimary with
          | none => simp [duoPollOnce, ha, hs, hc, hf]
          | some fn => simp [duoPollOnce, ha, hs, hc, hf]
        | true =>
          cases hf : e.fetchSecondary with
          | none => simp [duoPollOnce, ha, hs, hc, hf]
          | some fn => simp [duoPollOnce, ha, hs, hc, hf]

/-- Claim C6.  For every polling producer whose cycles complete without
exception and during which no successful put into its frame channel
occurs, the polling loop terminates itself at the first cycle whose idle
check observes more than `FULL_QUEUE_TIMEOUT` (60 time units) elapsed
since the last successful put — i.e. within one poll cycle after the
threshold elapses. -/
theorem idle_self_termination (ts : Int) (cs : List PollCycle) (k : Nat)
    (c : PollCycle) (hk : cs[k]? = some c)
    (hraise : ∀ d ∈ cs, d.raises = false)
    (hput : ∀ d ∈ cs, d.putTime = none)
    (hafter : c.checkTime - ts > FULL_QUEUE_TIMEOUT)
    (hbefore : ∀ j d, j < k → cs[j]? = some d →
      d.checkTime - ts ≤ FULL_QUEUE_TIMEOUT) :
    runPollLoop ts cs = some k :=
  runPollLoop_first_break ts cs k c hk hraise hput hafter hbefore

/-- Claim C6, witness: last successful put at time 0, idle checks at
times 30 and 100; the loop survives the first cycle and self-terminates
at the second, the first past the 60-unit threshold. -/
theorem idle_self_termination_witness :
    runPollLoop 0 [⟨false, none, 30⟩, ⟨false, none, 100⟩] = some 1 :=
  idle_self_termination 0 [⟨false, none, 30⟩, ⟨false, none, 100⟩] 1
    ⟨false, none, 100⟩ (by decide) (by decide) (by decide) (by decide)
    (by
      intro j d hj hjd
      obtain rfl : j = 0 := Nat.lt_one_iff.mp hj
      have hd : d = ⟨false, none, 30⟩ := by simpa using hjd.symm
      rw [hd]
      decide)

/-- Claim C8, counterexample.  The claim states the header decode fails
exactly when the buffer is shorter than the fixed header size OR the
decoded width or height is non-positive.  On a 32-byte all-zero buffer —
not short, width 0 and height 0 both non-positive — the code's decode
nevertheless succeeds, returning the fields as decoded: `struct.unpack`
performs no validation. -/
theorem zero_size_header_decodes :
    decodeHeader (List.replicate 32 0) = some (0, 0, 0, 32) ∧
      ¬ (List.replicate 32 (0 : Nat)).length < hsize ∧
      ¬ 0 < (0 : Int) := by
  decide

/-- Claim C8, amended.  The header decode is a pure function that fails
exactly when the buffer is shorter than the fixed 32-byte header size;
width and height are returned as decoded without a positivity check, and
on success it returns (sequence number, width, height, payload offset):
packing any header fields and appending a payload decodes back to the
(two's-complement) field values and payload offset 32. -/
theorem header_decode_fails_iff_short :
    (∀ buf : List Nat, (decodeHeader buf = none ↔ buf.length < hsize)) ∧
    (∀ (magic f1 mode seq w h r1 r2 r3 r4 : Nat) (payload : List Nat),
      seq < 2 ^ 64 → w < 2 ^ 32 → h < 2 ^ 32 →
      decodeHeader
          (encodeHeader magic f1 mode seq w h r1 r2 r3 r4 ++ payload) =
        some (toSigned 64 seq, toSigned 32 w, toSigned 32 h, hsize)) := by
  constructor
  · intro buf
    unfold decodeHeader
    split <;> simp_all
  · intro magic f1 mode seq w h r1 r2 r3 r4 payload hseq hw hh
    exact decodeHeader_encodeHeader magic f1 mode seq w h r1 r2 r3 r4
      payload hseq hw hh

/-- Claim C8, amended, witness: a concrete packed header (sequence 7,
width 640, height 480) with a one-byte payload decodes to its fields. -/
theorem header_decode_fails_iff_short_witness :
    decodeHeader (encodeHeader 1 2 3 7 640 480 0 0 0 0 ++ [5]) =
      some (7, 640, 480, 32) := by
  have h := header_decode_fails_iff_short.2 1 2 3 7 640 480 0 0 0 0 [5]
    (by decide) (by decide) (by decide)
  rw [h]
  decide

/-- Claim C9.  `Camera._write_data` on a non-queue output sink (the
`IO`/transcode-bridge path) performs the write but leaves
`_write_successfull_timestamp` unchanged — only a successful queue put
refreshes it — so a producer polling into an `IO` sink has cycles with no
successful put, and its loop exits once `FULL_QUEUE_TIMEOUT` elapses
after the timestamp set at the start of `poll_image`, even though every
write succeeded. -/
theorem io_sink_never_refreshes_idle_clock :
    (∀ (sink : List (List Nat)) (ts : Int) (d : List Nat),
      (writeDataSink sink ts d).2 = ts ∧
        (writeDataSink sink ts d).1 = sink ++ [d]) ∧
    (∀ (ts : Int) (cs : List PollCycle) (k : Nat) (c : PollCycle),
      cs[k]? = some c → (∀ d ∈ cs, d.raises = false) →
      (∀ d ∈ cs, d.putTime = none) →
      c.checkTime - ts > FULL_QUEUE_TIMEOUT →
      (∀ j d, j < k → cs[j]? = some d →
        d.checkTime - ts ≤ FULL_QUEUE_TIMEOUT) →
      runPollLoop ts cs = some k) :=
  ⟨fun _ _ _ => ⟨rfl, rfl⟩,
    fun ts cs k c hk h1 h2 h3 h4 =>
      runPollLoop_first_break ts cs k c hk h1 h2 h3 h4⟩

/-- Claim C9, witness: an `IO`-sink producer whose timestamp was set at
time 10 exits at the very first idle check past the threshold (time 100),
all its writes having succeeded. -/
theorem io_sink_never_refreshes_idle_clock_witness :
    runPollLoop 10 [⟨false, none, 100⟩] = some 0 :=
  io_sink_never_refreshes_idle_clock.2 10 [⟨false, none, 100⟩] 0
    ⟨false, none, 100⟩ (by decide) (by decide) (by decide) (by decide)
    (by intro j d hj; exact absurd hj (Nat.not_lt_zero j))

/-- Claim C10.  When `max_concurrent_streams` is configured as 0 (or any
value ≤ 0), the first request from a client with no existing session
takes the eviction branch on the empty session map and raises an uncaught
`IndexError` at `list(client2streamer.keys())[0]` instead of creating a
session, and the session state is left unchanged. -/
theorem zero_max_streams_index_error (maxStreams : Int)
    (hmax : maxStreams ≤ 0) (c : Client) (fresh : Nat) :
    videoFeed maxStreams [] c fresh = .error .indexError ∧
    (∀ (stopped : List Nat) (fr : Nat),
      feedStep maxStreams ⟨[], stopped, fr⟩ c = ⟨[], stopped, fr⟩) := by
  constructor
  · simp [videoFeed, lookupClient, hmax]
  · intro stopped fr
    exact feedStep_error maxStreams stopped fr c hmax

/-- Claim C10, witness at `max_concurrent_streams = 0` and a concrete
client. -/
theorem zero_max_streams_index_error_witness :
    videoFeed 0 [] clientA 0 = .error .indexError :=
  (zero_max_streams_index_error 0 (le_refl 0) clientA 0).1

end VideoStreamer
